import Mathlib

/- Shallow embedding of `src/app.py`, the demand/capacity allocation script:
the function `calcular_alocacao` (lines 84-189) with its self-service phase,
greedy matching loop, allocation-trail formatting and summary metrics, and the
configuration bound enforced by the UI widget of `main` (lines 48-49).
Numeric cell values are modelled as integers (the script manipulates them only
through `min`, subtraction and comparisons); the efficiency percentage, the one
derived value produced by a division, is modelled as a rational. -/

/-- One input row of the table: the four required columns
`identificador, grupo, capacidade_instalada, demanda` (lines 26-40). -/
structure Registro where
  identificador : String
  grupo : String
  capacidade_instalada : ℤ
  demanda : ℤ
deriving DecidableEq

/-- One unit record during and after the computation: a row dict of the script
(`df.to_dict('records')`, line 97) carrying the original columns, the derived
phase-1 columns and the detail string. -/
structure Unidade where
  identificador : String
  grupo : String
  capacidade_instalada : ℤ
  demanda : ℤ
  demanda_atendida_local : ℤ
  demanda_na : ℤ
  capacidade_ociosa : ℤ
  demanda_atendida_por : String
deriving DecidableEq

/-- Phase 1 (lines 88-94): self service
`demanda_atendida_local = min(demanda, capacidade_instalada)`,
`demanda_na = demanda - demanda_atendida_local`,
`capacidade_ociosa = capacidade_instalada - demanda_atendida_local`,
and the detail column initialised to the empty string. -/
def autoAtendimento (r : Registro) : Unidade :=
  { identificador := r.identificador
    grupo := r.grupo
    capacidade_instalada := r.capacidade_instalada
    demanda := r.demanda
    demanda_atendida_local := min r.demanda r.capacidade_instalada
    demanda_na := r.demanda - min r.demanda r.capacidade_instalada
    capacidade_ociosa := r.capacidade_instalada - min r.demanda r.capacidade_instalada
    demanda_atendida_por := "" }

/-- Default unit returned by `getU` outside the valid index range; the engine
only ever dereferences indices of existing records. -/
def unidadePadrao : Unidade :=
  { identificador := ""
    grupo := ""
    capacidade_instalada := 0
    demanda := 0
    demanda_atendida_local := 0
    demanda_na := 0
    capacidade_ociosa := 0
    demanda_atendida_por := "" }

/-- Dereference of the shared record at position `i` of the unit collection:
the Python lists `origens`/`destinos` hold references into `unidades`, so the
loop always reads the current value of the record. -/
def getU (l : List Unidade) (i : Nat) : Unidade := l.getD i unidadePadrao

/-- One recorded allocation: an entry appended to `alocacoes_detalhadas`
(lines 136-139). The script stores the destination identifier and the quantity
under the origin's identifier key; `origemIdx`/`destinoIdx` additionally record
the positions of the two mutated records and `origem_id` the dict key used. -/
structure Alocacao where
  origemIdx : Nat
  destinoIdx : Nat
  origem_id : String
  destino : String
  quantidade : ℤ
deriving DecidableEq

/-- State of the matching loop: the shared unit records, the allocations in
creation order, and a count of how many times the `qtd_alocada < min_alocacao`
branch of line 128 was taken. -/
structure EstadoAlocacao where
  unidades : List Unidade
  alocacoes : List Alocacao
  qtd_skips : Nat
deriving DecidableEq

/-- Line 132: `origem['demanda_na'] -= qtd_alocada` on the record at `o`. -/
def atualizaNa (l : List Unidade) (o : Nat) (q : ℤ) : List Unidade :=
  l.set o { getU l o with demanda_na := (getU l o).demanda_na - q }

/-- Line 133: `destino['capacidade_ociosa'] -= qtd_alocada` on the record at
`d`. -/
def atualizaOci (l : List Unidade) (d : Nat) (q : ℤ) : List Unidade :=
  l.set d { getU l d with capacidade_ociosa := (getU l d).capacidade_ociosa - q }

/-- Lines 131-133: decrement `origem['demanda_na']` and then
`destino['capacidade_ociosa']` by the allocated quantity. -/
def aplicarAlocacao (l : List Unidade) (o d : Nat) (q : ℤ) : List Unidade :=
  atualizaOci (atualizaNa l o q) d q

/-- Lines 124-139 after the guards have passed: compute
`qtd_alocada = min(origem['demanda_na'], destino['capacidade_ociosa'])`,
update the two records and append the allocation entry. -/
def corresponder (s : EstadoAlocacao) (o d : Nat) : EstadoAlocacao :=
  let q := min (getU s.unidades o).demanda_na (getU s.unidades d).capacidade_ociosa
  { unidades := aplicarAlocacao s.unidades o d q
    alocacoes := s.alocacoes ++
      [{ origemIdx := o
         destinoIdx := d
         origem_id := (getU s.unidades o).identificador
         destino := (getU s.unidades d).identificador
         quantidade := q }]
    qtd_skips := s.qtd_skips }

/-- Inner loop of phase 2 (lines 115-143) for the origin at position `o`:
scan the destination positions in order; skip on same identifier, insufficient
idle capacity, group mismatch, or quantity below the threshold; otherwise
apply the match and stop as soon as the origin's residual demand falls below
`min_alocacao`. -/
def alocarDestinos (mesmo_grupo : Bool) (min_alocacao : ℤ) (o : Nat) :
    List Nat → EstadoAlocacao → EstadoAlocacao
  | [], s => s
  | d :: ds, s =>
    if (getU s.unidades o).identificador = (getU s.unidades d).identificador ∨
        (getU s.unidades d).capacidade_ociosa < min_alocacao then
      alocarDestinos mesmo_grupo min_alocacao o ds s
    else if mesmo_grupo = true ∧ (getU s.unidades o).grupo ≠ (getU s.unidades d).grupo then
      alocarDestinos mesmo_grupo min_alocacao o ds s
    else if min (getU s.unidades o).demanda_na (getU s.unidades d).capacidade_ociosa <
        min_alocacao then
      alocarDestinos mesmo_grupo min_alocacao o ds
        { s with qtd_skips := s.qtd_skips + 1 }
    else
      let s' := corresponder s o d
      if (getU s'.unidades o).demanda_na < min_alocacao then s'
      else alocarDestinos mesmo_grupo min_alocacao o ds s'

/-- Outer loop of phase 2 (lines 111-113): for each origin position in order,
skip it when its current residual demand is below `min_alocacao`, otherwise run
the inner destination scan. -/
def alocarOrigens (mesmo_grupo : Bool) (min_alocacao : ℤ) (destinos : List Nat) :
    List Nat → EstadoAlocacao → EstadoAlocacao
  | [], s => s
  | o :: os, s =>
    alocarOrigens mesmo_grupo min_alocacao destinos os
      (if (getU s.unidades o).demanda_na < min_alocacao then s
       else alocarDestinos mesmo_grupo min_alocacao o destinos s)

/-- Stable descending insertion of a position into an already sorted position
list: the element moves past strictly greater keys only, so equal keys keep
their original relative order, as Python's stable `list.sort` does. -/
def inserirDesc (chave : Nat → ℤ) (i : Nat) : List Nat → List Nat
  | [] => [i]
  | j :: js => if chave i < chave j then j :: inserirDesc chave i js else i :: j :: js

/-- Stable descending sort of a position list by the given key
(`list.sort(key=..., reverse=True)`, lines 104-105). -/
def ordenarDesc (chave : Nat → ℤ) : List Nat → List Nat
  | [] => []
  | i :: is => inserirDesc chave i (ordenarDesc chave is)

/-- Lines 100 and 104: positions of the units with unmet demand
(`demanda_na > 0` on the values before any mutation), sorted descending by
that unmet demand. -/
def origensDe (unidades : List Unidade) : List Nat :=
  ordenarDesc (fun i => (getU unidades i).demanda_na)
    ((List.range unidades.length).filter
      (fun i => decide (0 < (getU unidades i).demanda_na)))

/-- Lines 101 and 105: positions of the units with idle capacity at or above
the threshold (on the values before any mutation), sorted descending by that
idle capacity. -/
def destinosDe (min_alocacao : ℤ) (unidades : List Unidade) : List Nat :=
  ordenarDesc (fun i => (getU unidades i).capacidade_ociosa)
    ((List.range unidades.length).filter
      (fun i => decide (min_alocacao ≤ (getU unidades i).capacidade_ociosa)))

/-- Phase 2 set-up and run (lines 100-143): build the origin and destination
position lists, then run the matching loop from the empty allocation list. -/
def faseAlocacao (mesmo_grupo : Bool) (min_alocacao : ℤ) (unidades : List Unidade) :
    EstadoAlocacao :=
  alocarOrigens mesmo_grupo min_alocacao (destinosDe min_alocacao unidades)
    (origensDe unidades)
    { unidades := unidades, alocacoes := [], qtd_skips := 0 }

/-- Lines 148-154: the detail text of one unit, from its allocation entries in
creation order: `"<destino> (<quantidade>)"` joined by `"; "`, or the sentinel
`"Auto-atendimento"` when the unit has no entry. -/
def detalheTexto (alocs : List Alocacao) : String :=
  if alocs.isEmpty then "Auto-atendimento"
  else String.intercalate "; "
    (alocs.map (fun a => a.destino ++ " (" ++ toString a.quantidade ++ ")"))

/-- Lines 145-154: write the detail text of a unit from the entries stored
under its identifier key (per-key append order equals creation order). -/
def formatarUnidade (alocacoes : List Alocacao) (u : Unidade) : Unidade :=
  { u with demanda_atendida_por :=
      detalheTexto (alocacoes.filter (fun a => decide (a.origem_id = u.identificador))) }

/-- Column sum `df['demanda_na'].sum()`. -/
def somaDemandaNa (l : List Unidade) : ℤ := (l.map (fun u => u.demanda_na)).sum

/-- Column sum `df['capacidade_ociosa'].sum()`. -/
def somaOciosa (l : List Unidade) : ℤ := (l.map (fun u => u.capacidade_ociosa)).sum

/-- Sum of the quantities of a list of allocation entries. -/
def somaQtd (alocs : List Alocacao) : ℤ := (alocs.map (fun a => a.quantidade)).sum

/-- The `resumo` dict (lines 175-182). -/
structure Resumo where
  demanda_na_inicial : ℤ
  demanda_na_final : ℤ
  capacidade_ociosa_inicial : ℤ
  capacidade_ociosa_final : ℤ
  demanda_alocada : ℤ
  eficiencia : ℚ
deriving DecidableEq

/-- The value returned by `calcular_alocacao`: the final unit rows (with
`demanda_na_final = demanda_na` and `capacidade_ociosa_final =
capacidade_ociosa` of the final records, lines 157-159), the allocation entries
in creation order, the skip count and the summary. -/
structure Resultado where
  unidades : List Unidade
  alocacoes : List Alocacao
  qtd_skips : Nat
  resumo : Resumo
deriving DecidableEq

/-- The whole of `calcular_alocacao` (lines 84-189): phase 1, phase 2, detail
formatting, and the summary computed from the pre-match snapshot (`df`, line
163) and the final records;
`demanda_alocada = demanda_na_inicial - demanda_na_final` (line 180) and
`eficiencia` by the guarded division of lines 170-173. -/
def calcular_alocacao (registros : List Registro) (mesmo_grupo : Bool)
    (min_alocacao : ℤ) : Resultado :=
  let unidades0 := registros.map autoAtendimento
  let s := faseAlocacao mesmo_grupo min_alocacao unidades0
  let unidadesFinais := s.unidades.map (formatarUnidade s.alocacoes)
  let demanda_na_inicial := somaDemandaNa unidades0
  let demanda_na_final := somaDemandaNa unidadesFinais
  { unidades := unidadesFinais
    alocacoes := s.alocacoes
    qtd_skips := s.qtd_skips
    resumo :=
      { demanda_na_inicial := demanda_na_inicial
        demanda_na_final := demanda_na_final
        capacidade_ociosa_inicial := somaOciosa unidades0
        capacidade_ociosa_final := somaOciosa unidadesFinais
        demanda_alocada := demanda_na_inicial - demanda_na_final
        eficiencia :=
          if 0 < demanda_na_inicial then
            ((demanda_na_inicial : ℚ) - (demanda_na_final : ℚ)) /
              (demanda_na_inicial : ℚ) * 100
          else 100 } }

/-- Lower bound of the `min_alocacao` sidebar widget (`min_value=1`, line 49):
the UI never hands the engine a value below it. -/
def minAlocacaoLimiteUI : ℤ := 1

/-- Configurations reachable through the UI: the widget only returns values at
or above its lower bound. -/
def configAceitaPelaUI (m : ℤ) : Prop := minAlocacaoLimiteUI ≤ m

/-- Two units of one group, the first with unmet demand 20 and the second with
idle capacity 50 (the worked scenario of the documentation). -/
def exemplo : List Registro :=
  [ { identificador := "CAP001", grupo := "A", capacidade_instalada := 100, demanda := 120 },
    { identificador := "CAP002", grupo := "A", capacidade_instalada := 150, demanda := 100 } ]

/-- One self-sufficient unit: no unmet demand at all. -/
def exemploAutossuficiente : List Registro :=
  [ { identificador := "CAP003", grupo := "B", capacidade_instalada := 50, demanda := 40 } ]

/-- The fields of a unit record the matching loop never writes: everything
except `demanda_na` and `capacidade_ociosa`. -/
def camposFixos (u : Unidade) : String × String × ℤ × ℤ × ℤ × String :=
  (u.identificador, u.grupo, u.capacidade_instalada, u.demanda,
    u.demanda_atendida_local, u.demanda_atendida_por)

/-- Sum of the quantities of the allocation entries originated by the unit at
position `i`. -/
def somaQtdOrigem (i : Nat) (alocs : List Alocacao) : ℤ :=
  ((alocs.filter (fun a => decide (a.origemIdx = i))).map (fun a => a.quantidade)).sum

/-- Sum of the quantities of the allocation entries received by the unit at
position `i`. -/
def somaQtdDestino (i : Nat) (alocs : List Alocacao) : ℤ :=
  ((alocs.filter (fun a => decide (a.destinoIdx = i))).map (fun a => a.quantidade)).sum

/-- Every allocation entry the loop records satisfies this: quantity at least
the threshold, both positions valid, the stored identifiers are those of the
two records, the two identifiers differ, and under the group restriction the
two groups coincide. -/
def AlocacaoValida (mesmo_grupo : Bool) (min_alocacao : ℤ) (unidades : List Unidade)
    (e : Alocacao) : Prop :=
  min_alocacao ≤ e.quantidade ∧
    e.origemIdx < unidades.length ∧
    e.destinoIdx < unidades.length ∧
    e.origem_id = (getU unidades e.origemIdx).identificador ∧
    e.destino = (getU unidades e.destinoIdx).identificador ∧
    e.origem_id ≠ e.destino ∧
    (mesmo_grupo = true →
      (getU unidades e.origemIdx).grupo = (getU unidades e.destinoIdx).grupo)

/-- The pair of positions `i` (as origin) and `j` (as destination) can never
match: same identifier, or group mismatch under the group restriction. -/
def ParBloqueado (unidades : List Unidade) (mesmo_grupo : Bool) (i j : Nat) : Prop :=
  (getU unidades i).identificador = (getU unidades j).identificador ∨
    (mesmo_grupo = true ∧ (getU unidades i).grupo ≠ (getU unidades j).grupo)

/-- The origin at position `i` is exhausted for this configuration: every
position with idle capacity at or above the threshold is permanently blocked
for it. -/
def Assentado (mesmo_grupo : Bool) (min_alocacao : ℤ) (unidades : List Unidade)
    (i : Nat) : Prop :=
  ∀ j, j < unidades.length → min_alocacao ≤ (getU unidades j).capacidade_ociosa →
    ParBloqueado unidades mesmo_grupo i j

/-- A unit collection on which the matching phase has nothing left to do:
every position whose residual demand still reaches the threshold is blocked
against every position whose idle capacity reaches it. -/
def Saturado (mesmo_grupo : Bool) (min_alocacao : ℤ) (unidades : List Unidade) : Prop :=
  ∀ i, i < unidades.length → min_alocacao ≤ (getU unidades i).demanda_na →
    Assentado mesmo_grupo min_alocacao unidades i

/-- Every unit of the collection has non-negative residual demand and
non-negative idle capacity. -/
def NaoNegativo (unidades : List Unidade) : Prop :=
  ∀ i, 0 ≤ (getU unidades i).demanda_na ∧ 0 ≤ (getU unidades i).capacidade_ociosa

example : (calcular_alocacao exemplo true 10).alocacoes =
    [{ origemIdx := 0, destinoIdx := 1, origem_id := "CAP001", destino := "CAP002",
       quantidade := 20 }] := by decide

example : (getU (calcular_alocacao exemplo true 10).unidades 0).demanda_na = 0 := by decide

example : (calcular_alocacao exemplo true 10).resumo.demanda_alocada = 20 := by decide

example : (getU (calcular_alocacao exemplo true 10).unidades 0).demanda_atendida_por =
    "CAP002 (20)" := by decide

example : (getU (calcular_alocacao exemplo true 10).unidades 1).demanda_atendida_por =
    "Auto-atendimento" := by decide

example : (calcular_alocacao exemplo true 25).alocacoes = [] := by decide

example : (calcular_alocacao exemplo true 0).alocacoes ≠ [] := by decide

theorem getU_set (l : List Unidade) (i j : Nat) (x : Unidade) :
    getU (l.set i x) j = if i = j ∧ i < l.length then x else getU l j := by
  simp only [getU, List.getD_eq_getElem?_getD, List.getElem?_set]
  by_cases hij : i = j
  · subst hij
    by_cases hi : i < l.length
    · simp [hi]
    · simp [hi, List.getElem?_eq_none (le_of_not_lt hi)]
  · simp [hij]

theorem getU_map_formatar (alocs : List Alocacao) (l : List Unidade) (i : Nat)
    (h : i < l.length) :
    getU (l.map (formatarUnidade alocs)) i = formatarUnidade alocs (getU l i) := by
  simp only [getU, List.getD_eq_getElem?_getD, List.getElem?_map,
    List.getElem?_eq_getElem h, Option.map_some]
  rfl

theorem length_atualizaNa (l : List Unidade) (o : Nat) (q : ℤ) :
    (atualizaNa l o q).length = l.length := by
  simp [atualizaNa]

theorem length_atualizaOci (l : List Unidade) (d : Nat) (q : ℤ) :
    (atualizaOci l d q).length = l.length := by
  simp [atualizaOci]

theorem length_aplicarAlocacao (l : List Unidade) (o d : Nat) (q : ℤ) :
    (aplicarAlocacao l o d q).length = l.length := by
  rw [aplicarAlocacao, length_atualizaOci, length_atualizaNa]

theorem na_atualizaNa (l : List Unidade) (o : Nat) (q : ℤ) (j : Nat) :
    (getU (atualizaNa l o q) j).demanda_na =
      if o = j ∧ o < l.length then (getU l o).demanda_na - q
      else (getU l j).demanda_na := by
  rw [atualizaNa, getU_set]
  split_ifs with h <;> rfl

theorem oci_atualizaNa (l : List Unidade) (o : Nat) (q : ℤ) (j : Nat) :
    (getU (atualizaNa l o q) j).capacidade_ociosa = (getU l j).capacidade_ociosa := by
  rw [atualizaNa, getU_set]
  split_ifs with h
  · obtain ⟨rfl, -⟩ := h
    rfl
  · rfl

theorem camposFixos_atualizaNa (l : List Unidade) (o : Nat) (q : ℤ) (j : Nat) :
    camposFixos (getU (atualizaNa l o q) j) = camposFixos (getU l j) := by
  rw [atualizaNa, getU_set]
  split_ifs with h
  · obtain ⟨rfl, -⟩ := h
    rfl
  · rfl

theorem oci_atualizaOci (l : List Unidade) (d : Nat) (q : ℤ) (j : Nat) :
    (getU (atualizaOci l d q) j).capacidade_ociosa =
      if d = j ∧ d < l.length then (getU l d).capacidade_ociosa - q
      else (getU l j).capacidade_ociosa := by
  rw [atualizaOci, getU_set]
  split_ifs with h <;> rfl

theorem na_atualizaOci (l : List Unidade) (d : Nat) (q : ℤ) (j : Nat) :
    (getU (atualizaOci l d q) j).demanda_na = (getU l j).demanda_na := by
  rw [atualizaOci, getU_set]
  split_ifs with h
  · obtain ⟨rfl, -⟩ := h
    rfl
  · rfl

theorem camposFixos_atualizaOci (l : List Unidade) (d : Nat) (q : ℤ) (j : Nat) :
    camposFixos (getU (atualizaOci l d q) j) = camposFixos (getU l j) := by
  rw [atualizaOci, getU_set]
  split_ifs with h
  · obtain ⟨rfl, -⟩ := h
    rfl
  · rfl

theorem camposFixos_aplicarAlocacao (l : List Unidade) (o d : Nat) (q : ℤ) (j : Nat) :
    camposFixos (getU (aplicarAlocacao l o d q) j) = camposFixos (getU l j) := by
  rw [aplicarAlocacao, camposFixos_atualizaOci, camposFixos_atualizaNa]

theorem na_aplicar (l : List Unidade) (o d : Nat) (q : ℤ) (j : Nat) :
    (getU (aplicarAlocacao l o d q) j).demanda_na =
      if o = j ∧ o < l.length then (getU l o).demanda_na - q
      else (getU l j).demanda_na := by
  rw [aplicarAlocacao, na_atualizaOci, na_atualizaNa]

theorem oci_aplicar (l : List Unidade) (o d : Nat) (q : ℤ) (j : Nat) :
    (getU (aplicarAlocacao l o d q) j).capacidade_ociosa =
      if d = j ∧ d < l.length then (getU l d).capacidade_ociosa - q
      else (getU l j).capacidade_ociosa := by
  rw [aplicarAlocacao, oci_atualizaOci, length_atualizaNa, oci_atualizaNa, oci_atualizaNa]

theorem inserirDesc_perm (chave : Nat → ℤ) (i : Nat) (l : List Nat) :
    (inserirDesc chave i l).Perm (i :: l) := by
  induction l with
  | nil => simp [inserirDesc]
  | cons j js ih =>
    rw [inserirDesc]
    split_ifs
    · exact (ih.cons j).trans (List.Perm.swap i j js)
    · exact List.Perm.refl _

theorem ordenarDesc_perm (chave : Nat → ℤ) (l : List Nat) :
    (ordenarDesc chave l).Perm l := by
  induction l with
  | nil => exact List.Perm.refl _
  | cons i is ih =>
    rw [ordenarDesc]
    exact (inserirDesc_perm chave i _).trans (ih.cons i)

theorem mem_ordenarDesc (chave : Nat → ℤ) (l : List Nat) (i : Nat) :
    i ∈ ordenarDesc chave l ↔ i ∈ l :=
  (ordenarDesc_perm chave l).mem_iff

theorem getU_oob (l : List Unidade) (i : Nat) (h : l.length ≤ i) :
    getU l i = unidadePadrao := by
  simp [getU, List.getD_eq_getElem?_getD, List.getElem?_eq_none h]

theorem unidades_corresponder (s : EstadoAlocacao) (o d : Nat) :
    (corresponder s o d).unidades =
      aplicarAlocacao s.unidades o d
        (min (getU s.unidades o).demanda_na (getU s.unidades d).capacidade_ociosa) := rfl

theorem alocacoes_corresponder (s : EstadoAlocacao) (o d : Nat) :
    (corresponder s o d).alocacoes = s.alocacoes ++
      [{ origemIdx := o
         destinoIdx := d
         origem_id := (getU s.unidades o).identificador
         destino := (getU s.unidades d).identificador
         quantidade :=
           min (getU s.unidades o).demanda_na (getU s.unidades d).capacidade_ociosa }] := rfl

theorem qtd_skips_corresponder (s : EstadoAlocacao) (o d : Nat) :
    (corresponder s o d).qtd_skips = s.qtd_skips := rfl

theorem alocarDestinos_length (mg : Bool) (m : ℤ) (o : Nat) (ds : List Nat)
    (s : EstadoAlocacao) :
    (alocarDestinos mg m o ds s).unidades.length = s.unidades.length := by
  induction ds generalizing s with
  | nil => rw [alocarDestinos]
  | cons d ds ih =>
    simp only [alocarDestinos]
    split_ifs with h1 h2 h3 h4
    · exact ih s
    · exact ih s
    · exact ih _
    · exact length_aplicarAlocacao _ _ _ _
    · exact (ih _).trans (length_aplicarAlocacao _ _ _ _)

theorem alocarDestinos_camposFixos (mg : Bool) (m : ℤ) (o : Nat) (ds : List Nat)
    (s : EstadoAlocacao) (j : Nat) :
    camposFixos (getU (alocarDestinos mg m o ds s).unidades j) =
      camposFixos (getU s.unidades j) := by
  induction ds generalizing s with
  | nil => rw [alocarDestinos]
  | cons d ds ih =>
    simp only [alocarDestinos]
    split_ifs with h1 h2 h3 h4
    · exact ih s
    · exact ih s
    · exact ih _
    · exact camposFixos_aplicarAlocacao _ _ _ _ _
    · exact (ih _).trans (camposFixos_aplicarAlocacao _ _ _ _ _)

theorem alocarOrigens_length (mg : Bool) (m : ℤ) (destinos os : List Nat)
    (s : EstadoAlocacao) :
    (alocarOrigens mg m destinos os s).unidades.length = s.unidades.length := by
  induction os generalizing s with
  | nil => rw [alocarOrigens]
  | cons o os ih =>
    rw [alocarOrigens]
    refine (ih _).trans ?_
    split_ifs with h
    · rfl
    · exact alocarDestinos_length _ _ _ _ _

theorem alocarOrigens_camposFixos (mg : Bool) (m : ℤ) (destinos os : List Nat)
    (s : EstadoAlocacao) (j : Nat) :
    camposFixos (getU (alocarOrigens mg m destinos os s).unidades j) =
      camposFixos (getU s.unidades j) := by
  induction os generalizing s with
  | nil => rw [alocarOrigens]
  | cons o os ih =>
    rw [alocarOrigens]
    refine (ih _).trans ?_
    split_ifs with h
    · rfl
    · exact alocarDestinos_camposFixos _ _ _ _ _ _

theorem id_de_camposFixos {u v : Unidade} (h : camposFixos u = camposFixos v) :
    u.identificador = v.identificador := congrArg (fun p => p.1) h

theorem grupo_de_camposFixos {u v : Unidade} (h : camposFixos u = camposFixos v) :
    u.grupo = v.grupo := congrArg (fun p => p.2.1) h

theorem cap_de_camposFixos {u v : Unidade} (h : camposFixos u = camposFixos v) :
    u.capacidade_instalada = v.capacidade_instalada := congrArg (fun p => p.2.2.1) h

theorem dem_de_camposFixos {u v : Unidade} (h : camposFixos u = camposFixos v) :
    u.demanda = v.demanda := congrArg (fun p => p.2.2.2.1) h

theorem local_de_camposFixos {u v : Unidade} (h : camposFixos u = camposFixos v) :
    u.demanda_atendida_local = v.demanda_atendida_local :=
  congrArg (fun p => p.2.2.2.2.1) h

theorem por_de_camposFixos {u v : Unidade} (h : camposFixos u = camposFixos v) :
    u.demanda_atendida_por = v.demanda_atendida_por :=
  congrArg (fun p => p.2.2.2.2.2) h

theorem alocarDestinos_na_outro (mg : Bool) (m : ℤ) (o : Nat) (ds : List Nat)
    (s : EstadoAlocacao) (j : Nat) (hj : j ≠ o) :
    (getU (alocarDestinos mg m o ds s).unidades j).demanda_na =
      (getU s.unidades j).demanda_na := by
  induction ds generalizing s with
  | nil => rw [alocarDestinos]
  | cons d ds ih =>
    simp only [alocarDestinos]
    split_ifs with h1 h2 h3 h4
    · exact ih s
    · exact ih s
    · exact ih _
    · have hoj : ¬(o = j ∧ o < s.unidades.length) := fun h => hj h.1.symm
      rw [unidades_corresponder, na_aplicar, if_neg hoj]
    · have hoj : ¬(o = j ∧ o < s.unidades.length) := fun h => hj h.1.symm
      refine (ih _).trans ?_
      rw [unidades_corresponder, na_aplicar, if_neg hoj]

theorem alocarDestinos_oci_mono (mg : Bool) (m : ℤ) (o : Nat) (ds : List Nat)
    (s : EstadoAlocacao) (hm : 0 ≤ m) (j : Nat) :
    (getU (alocarDestinos mg m o ds s).unidades j).capacidade_ociosa ≤
      (getU s.unidades j).capacidade_ociosa := by
  induction ds generalizing s with
  | nil => rw [alocarDestinos]
  | cons d ds ih =>
    simp only [alocarDestinos]
    split_ifs with h1 h2 h3 h4
    · exact ih s
    · exact ih s
    · exact ih _
    · rw [unidades_corresponder, oci_aplicar]
      have hq : m ≤ min (getU s.unidades o).demanda_na
          (getU s.unidades d).capacidade_ociosa := not_lt.mp h3
      split_ifs with h5
      · obtain ⟨rfl, -⟩ := h5
        omega
      · exact le_refl _
    · refine le_trans (ih _) ?_
      rw [unidades_corresponder, oci_aplicar]
      have hq : m ≤ min (getU s.unidades o).demanda_na
          (getU s.unidades d).capacidade_ociosa := not_lt.mp h3
      split_ifs with h5
      · obtain ⟨rfl, -⟩ := h5
        omega
      · exact le_refl _

theorem alocarDestinos_na_mono (mg : Bool) (m : ℤ) (o : Nat) (ds : List Nat)
    (s : EstadoAlocacao) (hm : 0 ≤ m) (j : Nat) :
    (getU (alocarDestinos mg m o ds s).unidades j).demanda_na ≤
      (getU s.unidades j).demanda_na := by
  induction ds generalizing s with
  | nil => rw [alocarDestinos]
  | cons d ds ih =>
    simp only [alocarDestinos]
    split_ifs with h1 h2 h3 h4
    · exact ih s
    · exact ih s
    · exact ih _
    · rw [unidades_corresponder, na_aplicar]
      have hq : m ≤ min (getU s.unidades o).demanda_na
          (getU s.unidades d).capacidade_ociosa := not_lt.mp h3
      split_ifs with h5
      · obtain ⟨rfl, -⟩ := h5
        omega
      · exact le_refl _
    · refine le_trans (ih _) ?_
      rw [unidades_corresponder, na_aplicar]
      have hq : m ≤ min (getU s.unidades o).demanda_na
          (getU s.unidades d).capacidade_ociosa := not_lt.mp h3
      split_ifs with h5
      · obtain ⟨rfl, -⟩ := h5
        omega
      · exact le_refl _

theorem naoNegativo_aplicar (l : List Unidade) (o d : Nat)
    (hnn : NaoNegativo l) :
    NaoNegativo (aplicarAlocacao l o d
      (min (getU l o).demanda_na (getU l d).capacidade_ociosa)) := by
  intro j
  rw [na_aplicar, oci_aplicar]
  constructor
  · split_ifs with h
    · obtain ⟨rfl, -⟩ := h
      have := min_le_left (getU l o).demanda_na (getU l d).capacidade_ociosa
      omega
    · exact (hnn j).1
  · split_ifs with h
    · obtain ⟨rfl, -⟩ := h
      have := min_le_right (getU l d).demanda_na (getU l d).capacidade_ociosa
      have h2 := min_le_right (getU l o).demanda_na (getU l d).capacidade_ociosa
      omega
    · exact (hnn j).2

theorem alocarDestinos_naoNegativo (mg : Bool) (m : ℤ) (o : Nat) (ds : List Nat)
    (s : EstadoAlocacao) (hnn : NaoNegativo s.unidades) :
    NaoNegativo (alocarDestinos mg m o ds s).unidades := by
  induction ds generalizing s with
  | nil => rw [alocarDestinos]; exact hnn
  | cons d ds ih =>
    simp only [alocarDestinos]
    split_ifs with h1 h2 h3 h4
    · exact ih s hnn
    · exact ih s hnn
    · exact ih _ hnn
    · rw [unidades_corresponder]
      exact naoNegativo_aplicar _ _ _ hnn
    · refine ih _ ?_
      rw [unidades_corresponder]
      exact naoNegativo_aplicar _ _ _ hnn

theorem alocarOrigens_naoNegativo (mg : Bool) (m : ℤ) (destinos os : List Nat)
    (s : EstadoAlocacao) (hnn : NaoNegativo s.unidades) :
    NaoNegativo (alocarOrigens mg m destinos os s).unidades := by
  induction os generalizing s with
  | nil => rw [alocarOrigens]; exact hnn
  | cons o os ih =>
    rw [alocarOrigens]
    refine ih _ ?_
    split_ifs with h
    · exact hnn
    · exact alocarDestinos_naoNegativo _ _ _ _ _ hnn

theorem alocarOrigens_oci_mono (mg : Bool) (m : ℤ) (destinos os : List Nat)
    (s : EstadoAlocacao) (hm : 0 ≤ m) (j : Nat) :
    (getU (alocarOrigens mg m destinos os s).unidades j).capacidade_ociosa ≤
      (getU s.unidades j).capacidade_ociosa := by
  induction os generalizing s with
  | nil => rw [alocarOrigens]
  | cons o os ih =>
    rw [alocarOrigens]
    refine le_trans (ih _) ?_
    split_ifs with h
    · exact le_refl _
    · exact alocarDestinos_oci_mono _ _ _ _ _ hm j

theorem alocarDestinos_qtd_skips (mg : Bool) (m : ℤ) (o : Nat) (ds : List Nat)
    (s : EstadoAlocacao) (hpre : m ≤ (getU s.unidades o).demanda_na) :
    (alocarDestinos mg m o ds s).qtd_skips = s.qtd_skips := by
  induction ds generalizing s with
  | nil => rw [alocarDestinos]
  | cons d ds ih =>
    simp only [alocarDestinos]
    split_ifs with h1 h2 h3 h4
    · exact ih s hpre
    · exact ih s hpre
    · push_neg at h1
      rw [min_lt_iff] at h3
      rcases h3 with h3 | h3
      · omega
      · exact absurd h3 (not_lt.mpr h1.2)
    · exact qtd_skips_corresponder _ _ _
    · exact (ih _ (not_lt.mp h4)).trans (qtd_skips_corresponder _ _ _)

theorem parBloqueado_transporte {l l' : List Unidade} (mg : Bool) (i j : Nat)
    (hcf : ∀ k, camposFixos (getU l' k) = camposFixos (getU l k)) :
    ParBloqueado l mg i j → ParBloqueado l' mg i j := by
  intro h
  rcases h with h | ⟨hmg, hne⟩
  · left
    rw [id_de_camposFixos (hcf i), id_de_camposFixos (hcf j)]
    exact h
  · right
    refine ⟨hmg, ?_⟩
    rw [grupo_de_camposFixos (hcf i), grupo_de_camposFixos (hcf j)]
    exact hne

theorem assentado_transporte {l l' : List Unidade} (mg : Bool) (m : ℤ) (i : Nat)
    (hlen : l'.length = l.length)
    (hcf : ∀ k, camposFixos (getU l' k) = camposFixos (getU l k))
    (hmono : ∀ k, (getU l' k).capacidade_ociosa ≤ (getU l k).capacidade_ociosa)
    (h : Assentado mg m l i) : Assentado mg m l' i := by
  intro j hj hoci
  exact parBloqueado_transporte mg i j hcf
    (h j (by omega) (le_trans hoci (hmono j)))

theorem alocarDestinos_cobre (mg : Bool) (m : ℤ) (o : Nat) (ds : List Nat)
    (s : EstadoAlocacao) (hm : 0 < m)
    (hpre : m ≤ (getU s.unidades o).demanda_na) :
    (getU (alocarDestinos mg m o ds s).unidades o).demanda_na < m ∨
      ∀ j ∈ ds, ParBloqueado (alocarDestinos mg m o ds s).unidades mg o j ∨
        (getU (alocarDestinos mg m o ds s).unidades j).capacidade_ociosa < m := by
  induction ds generalizing s with
  | nil =>
    right
    intro j hj
    exact absurd hj (List.not_mem_nil j)
  | cons d ds ih =>
    simp only [alocarDestinos]
    split_ifs with h1 h2 h3 h4
    · rcases ih s hpre with hl | hr
      · exact Or.inl hl
      · right
        intro j hj
        rcases List.mem_cons.mp hj with rfl | hj
        · rcases h1 with h1 | h1
          · exact Or.inl (parBloqueado_transporte mg o j
              (fun k => alocarDestinos_camposFixos mg m o ds s k) (Or.inl h1))
          · exact Or.inr (lt_of_le_of_lt
              (alocarDestinos_oci_mono mg m o ds s hm.le j) h1)
        · exact hr j hj
    · rcases ih s hpre with hl | hr
      · exact Or.inl hl
      · right
        intro j hj
        rcases List.mem_cons.mp hj with rfl | hj
        · exact Or.inl (parBloqueado_transporte mg o j
            (fun k => alocarDestinos_camposFixos mg m o ds s k) (Or.inr h2))
        · exact hr j hj
    · push_neg at h1
      rw [min_lt_iff] at h3
      rcases h3 with h3 | h3
      · omega
      · exact absurd h3 (not_lt.mpr h1.2)
    · exact Or.inl h4
    · have ho_len : o < s.unidades.length := by
        by_contra hol
        rw [getU_oob _ _ (not_lt.mp hol)] at hpre
        simp only [unidadePadrao] at hpre
        omega
      have hd_len : d < s.unidades.length := by
        by_contra hdl
        push_neg at h1
        rw [getU_oob _ _ (not_lt.mp hdl)] at h1
        have h12 := h1.2
        simp only [unidadePadrao] at h12
        omega
      have hpre' : m ≤ (getU (corresponder s o d).unidades o).demanda_na := not_lt.mp h4
      have h4' := hpre'
      rw [unidades_corresponder, na_aplicar, if_pos ⟨rfl, ho_len⟩] at h4'
      have hqd : min (getU s.unidades o).demanda_na (getU s.unidades d).capacidade_ociosa =
          (getU s.unidades d).capacidade_ociosa := by
        rcases min_cases (getU s.unidades o).demanda_na
          (getU s.unidades d).capacidade_ociosa with ⟨hmin, hle⟩ | ⟨hmin, hle⟩ <;> omega
      have hoci1 : (getU (corresponder s o d).unidades d).capacidade_ociosa = 0 := by
        rw [unidades_corresponder, oci_aplicar, if_pos ⟨rfl, hd_len⟩, hqd]
        exact sub_self _
      rcases ih (corresponder s o d) hpre' with hl | hr
      · exact Or.inl hl
      · right
        intro j hj
        rcases List.mem_cons.mp hj with rfl | hj
        · refine Or.inr ?_
          have hmono := alocarDestinos_oci_mono mg m o ds (corresponder s o j) hm.le j
          rw [hoci1] at hmono
          omega
        · exact hr j hj

theorem alocarOrigens_assenta (mg : Bool) (m : ℤ) (destinos os : List Nat)
    (s : EstadoAlocacao) (hm : 0 < m)
    (hdcomp : ∀ j, j < s.unidades.length →
      m ≤ (getU s.unidades j).capacidade_ociosa → j ∈ destinos)
    (hprev : ∀ i, i < s.unidades.length → i ∉ os →
      m ≤ (getU s.unidades i).demanda_na → Assentado mg m s.unidades i) :
    Saturado mg m (alocarOrigens mg m destinos os s).unidades := by
  induction os generalizing s with
  | nil =>
    rw [alocarOrigens]
    intro i hi hna
    exact hprev i hi (List.not_mem_nil i) hna
  | cons o os ih =>
    rw [alocarOrigens]
    split_ifs with h
    · refine ih s hdcomp ?_
      intro i hi hios hna
      by_cases hio : i = o
      · subst hio
        exact absurd hna (not_le.mpr h)
      · exact hprev i hi (fun hmem => (List.mem_cons.mp hmem).elim hio hios) hna
    · have hlen1 : (alocarDestinos mg m o destinos s).unidades.length =
          s.unidades.length := alocarDestinos_length _ _ _ _ _
      have hcf1 : ∀ k, camposFixos (getU (alocarDestinos mg m o destinos s).unidades k) =
          camposFixos (getU s.unidades k) :=
        fun k => alocarDestinos_camposFixos _ _ _ _ _ _
      have hmono1 : ∀ k, (getU (alocarDestinos mg m o destinos s).unidades k).capacidade_ociosa ≤
          (getU s.unidades k).capacidade_ociosa :=
        fun k => alocarDestinos_oci_mono _ _ _ _ _ hm.le k
      have hfro1 : ∀ k, k ≠ o →
          (getU (alocarDestinos mg m o destinos s).unidades k).demanda_na =
            (getU s.unidades k).demanda_na :=
        fun k hk => alocarDestinos_na_outro _ _ _ _ _ _ hk
      have hcobre := alocarDestinos_cobre mg m o destinos s hm (not_lt.mp h)
      refine ih _ ?_ ?_
      · intro j hj hoci
        exact hdcomp j (by omega) (le_trans hoci (hmono1 j))
      · intro i hi hios hna
        by_cases hio : i = o
        · subst hio
          rcases hcobre with hl | hr
          · exact absurd hna (not_le.mpr hl)
          · intro j hj hoci
            have hjdest : j ∈ destinos := hdcomp j (by omega) (le_trans hoci (hmono1 j))
            rcases hr j hjdest with hb | hoci2
            · exact hb
            · exact absurd hoci (not_le.mpr hoci2)
        · have hnas : m ≤ (getU s.unidades i).demanda_na := by
            rw [← hfro1 i hio]
            exact hna
          have hAs : Assentado mg m s.unidades i :=
            hprev i (by omega) (fun hmem => (List.mem_cons.mp hmem).elim hio hios) hnas
          exact assentado_transporte mg m i hlen1 hcf1 hmono1 hAs

theorem assentado_nunca (mg : Bool) (m : ℤ) (s : EstadoAlocacao) (o d : Nat)
    (hm : 0 < m) (hA : Assentado mg m s.unidades o)
    (h1 : ¬((getU s.unidades o).identificador = (getU s.unidades d).identificador ∨
      (getU s.unidades d).capacidade_ociosa < m))
    (h2 : ¬(mg = true ∧ (getU s.unidades o).grupo ≠ (getU s.unidades d).grupo)) :
    False := by
  push_neg at h1
  have hd_len : d < s.unidades.length := by
    by_contra hdl
    rw [getU_oob _ _ (not_lt.mp hdl)] at h1
    have h12 := h1.2
    simp only [unidadePadrao] at h12
    omega
  rcases hA d hd_len h1.2 with hb | ⟨hmg, hne⟩
  · exact h1.1 hb
  · exact h2 ⟨hmg, hne⟩

theorem alocarDestinos_bloqueado (mg : Bool) (m : ℤ) (o : Nat) (ds : List Nat)
    (s : EstadoAlocacao) (hm : 0 < m) (hA : Assentado mg m s.unidades o) :
    alocarDestinos mg m o ds s = s := by
  induction ds with
  | nil => rw [alocarDestinos]
  | cons d ds ih =>
    simp only [alocarDestinos]
    split_ifs with h1 h2 h3 h4
    · exact ih
    · exact ih
    · exact absurd (assentado_nunca mg m s o d hm hA h1 h2) id
    · exact absurd (assentado_nunca mg m s o d hm hA h1 h2) id
    · exact absurd (assentado_nunca mg m s o d hm hA h1 h2) id

theorem alocarOrigens_bloqueado (mg : Bool) (m : ℤ) (destinos os : List Nat)
    (s : EstadoAlocacao) (hm : 0 < m) (hsat : Saturado mg m s.unidades)
    (hos : ∀ i ∈ os, i < s.unidades.length) :
    alocarOrigens mg m destinos os s = s := by
  induction os with
  | nil => rw [alocarOrigens]
  | cons o os ih =>
    have ho : o < s.unidades.length := hos o (List.mem_cons_self o os)
    have hos' : ∀ i ∈ os, i < s.unidades.length :=
      fun i hi => hos i (List.mem_cons_of_mem o hi)
    rw [alocarOrigens]
    split_ifs with h
    · exact ih hos'
    · rw [alocarDestinos_bloqueado mg m o destinos s hm (hsat o ho (not_lt.mp h))]
      exact ih hos'

theorem alocacaoValida_transporte (mg : Bool) (m : ℤ) {l l' : List Unidade} (e : Alocacao)
    (hlen : l'.length = l.length)
    (hcf : ∀ j, camposFixos (getU l' j) = camposFixos (getU l j)) :
    AlocacaoValida mg m l e → AlocacaoValida mg m l' e := by
  rintro ⟨h1, h2, h3, h4, h5, h6, h7⟩
  refine ⟨h1, by omega, by omega, ?_, ?_, h6, ?_⟩
  · rw [id_de_camposFixos (hcf e.origemIdx)]
    exact h4
  · rw [id_de_camposFixos (hcf e.destinoIdx)]
    exact h5
  · intro hmg
    rw [grupo_de_camposFixos (hcf e.origemIdx), grupo_de_camposFixos (hcf e.destinoIdx)]
    exact h7 hmg

theorem alocacaoValida_nova (mg : Bool) (m : ℤ) (s : EstadoAlocacao) (o d : Nat)
    (ho : o < s.unidades.length) (hd : d < s.unidades.length)
    (h1 : ¬((getU s.unidades o).identificador = (getU s.unidades d).identificador ∨
      (getU s.unidades d).capacidade_ociosa < m))
    (h2 : ¬(mg = true ∧ (getU s.unidades o).grupo ≠ (getU s.unidades d).grupo))
    (h3 : ¬min (getU s.unidades o).demanda_na (getU s.unidades d).capacidade_ociosa < m) :
    AlocacaoValida mg m (corresponder s o d).unidades
      { origemIdx := o
        destinoIdx := d
        origem_id := (getU s.unidades o).identificador
        destino := (getU s.unidades d).identificador
        quantidade :=
          min (getU s.unidades o).demanda_na (getU s.unidades d).capacidade_ociosa } := by
  push_neg at h1
  have hlen : (corresponder s o d).unidades.length = s.unidades.length :=
    length_aplicarAlocacao _ _ _ _
  have hcf : ∀ j, camposFixos (getU (corresponder s o d).unidades j) =
      camposFixos (getU s.unidades j) :=
    fun j => camposFixos_aplicarAlocacao _ _ _ _ _
  refine ⟨not_lt.mp h3, ?_, ?_, ?_, ?_, h1.1, ?_⟩
  · show o < (corresponder s o d).unidades.length
    omega
  · show d < (corresponder s o d).unidades.length
    omega
  · exact (id_de_camposFixos (hcf o)).symm
  · exact (id_de_camposFixos (hcf d)).symm
  · intro hmg
    rw [grupo_de_camposFixos (hcf o), grupo_de_camposFixos (hcf d)]
    exact not_not.mp (not_and.mp h2 hmg)

theorem alocarDestinos_alocacoesValidas (mg : Bool) (m : ℤ) (o : Nat) (ds : List Nat)
    (s : EstadoAlocacao) (ho : o < s.unidades.length)
    (hds : ∀ j ∈ ds, j < s.unidades.length)
    (hInv : ∀ e ∈ s.alocacoes, AlocacaoValida mg m s.unidades e) :
    ∀ e ∈ (alocarDestinos mg m o ds s).alocacoes,
      AlocacaoValida mg m (alocarDestinos mg m o ds s).unidades e := by
  induction ds generalizing s with
  | nil =>
    rw [alocarDestinos]
    exact hInv
  | cons d ds ih =>
    have hd : d < s.unidades.length := hds d (List.mem_cons_self d ds)
    have hds' : ∀ j ∈ ds, j < s.unidades.length := fun j hj => hds j (List.mem_cons_of_mem d hj)
    simp only [alocarDestinos]
    split_ifs with h1 h2 h3 h4
    · exact ih s ho hds' hInv
    · exact ih s ho hds' hInv
    · exact ih _ ho hds' hInv
    · intro e he
      rw [alocacoes_corresponder] at he
      rcases List.mem_append.mp he with he | he
      · exact alocacaoValida_transporte mg m e (length_aplicarAlocacao _ _ _ _)
          (fun j => camposFixos_aplicarAlocacao _ _ _ _ _) (hInv e he)
      · rw [List.mem_singleton.mp he]
        exact alocacaoValida_nova mg m s o d ho hd h1 h2 h3
    · have hlen : (corresponder s o d).unidades.length = s.unidades.length :=
        length_aplicarAlocacao _ _ _ _
      refine ih _ (by omega) (fun j hj => by rw [hlen]; exact hds' j hj) ?_
      intro e he
      rw [alocacoes_corresponder] at he
      rcases List.mem_append.mp he with he | he
      · exact alocacaoValida_transporte mg m e hlen
          (fun j => camposFixos_aplicarAlocacao _ _ _ _ _) (hInv e he)
      · rw [List.mem_singleton.mp he]
        exact alocacaoValida_nova mg m s o d ho hd h1 h2 h3

theorem alocarOrigens_alocacoesValidas (mg : Bool) (m : ℤ) (destinos os : List Nat)
    (s : EstadoAlocacao) (hos : ∀ i ∈ os, i < s.unidades.length)
    (hds : ∀ j ∈ destinos, j < s.unidades.length)
    (hInv : ∀ e ∈ s.alocacoes, AlocacaoValida mg m s.unidades e) :
    ∀ e ∈ (alocarOrigens mg m destinos os s).alocacoes,
      AlocacaoValida mg m (alocarOrigens mg m destinos os s).unidades e := by
  induction os generalizing s with
  | nil =>
    rw [alocarOrigens]
    exact hInv
  | cons o os ih =>
    have ho : o < s.unidades.length := hos o (List.mem_cons_self o os)
    have hos' : ∀ i ∈ os, i < s.unidades.length := fun i hi => hos i (List.mem_cons_of_mem o hi)
    rw [alocarOrigens]
    split_ifs with h
    · exact ih s hos' hds hInv
    · have hlen : (alocarDestinos mg m o destinos s).unidades.length = s.unidades.length :=
        alocarDestinos_length _ _ _ _ _
      exact ih _ (fun i hi => by rw [hlen]; exact hos' i hi)
        (fun j hj => by rw [hlen]; exact hds j hj)
        (alocarDestinos_alocacoesValidas mg m o destinos s ho hds hInv)

theorem somaProj_set (f : Unidade → ℤ) (l : List Unidade) (i : Nat) (x : Unidade)
    (h : i < l.length) :
    ((l.set i x).map f).sum = (l.map f).sum - f (getU l i) + f x := by
  induction l generalizing i with
  | nil => simp at h
  | cons u us ih =>
    cases i with
    | zero =>
      simp [getU]
      ring
    | succ k =>
      have hk : k < us.length := by
        simpa using h
      have hget : getU (u :: us) (k + 1) = getU us k := by
        simp [getU]
      simp only [List.set_cons_succ, List.map_cons, List.sum_cons, ih k hk, hget]
      ring

theorem somaDemandaNa_atualizaNa (l : List Unidade) (o : Nat) (q : ℤ)
    (ho : o < l.length) :
    somaDemandaNa (atualizaNa l o q) = somaDemandaNa l - q := by
  rw [atualizaNa]
  simp only [somaDemandaNa]
  rw [somaProj_set _ _ _ _ ho]
  ring

theorem somaDemandaNa_atualizaOci (l : List Unidade) (d : Nat) (q : ℤ) :
    somaDemandaNa (atualizaOci l d q) = somaDemandaNa l := by
  by_cases hd : d < l.length
  · rw [atualizaOci]
    simp only [somaDemandaNa]
    rw [somaProj_set _ _ _ _ hd]
    ring
  · rw [atualizaOci, List.set_eq_of_length_le (not_lt.mp hd)]

theorem somaDemandaNa_aplicar (l : List Unidade) (o d : Nat) (q : ℤ)
    (ho : o < l.length) :
    somaDemandaNa (aplicarAlocacao l o d q) = somaDemandaNa l - q := by
  rw [aplicarAlocacao, somaDemandaNa_atualizaOci, somaDemandaNa_atualizaNa _ _ _ ho]

theorem somaQtd_append_um (as : List Alocacao) (e : Alocacao) :
    somaQtd (as ++ [e]) = somaQtd as + e.quantidade := by
  simp [somaQtd]

theorem corresponder_soma (s : EstadoAlocacao) (o d : Nat) (ho : o < s.unidades.length) :
    somaDemandaNa (corresponder s o d).unidades + somaQtd (corresponder s o d).alocacoes =
      somaDemandaNa s.unidades + somaQtd s.alocacoes := by
  rw [unidades_corresponder, alocacoes_corresponder,
    somaDemandaNa_aplicar _ _ _ _ ho, somaQtd_append_um]
  ring

theorem alocarDestinos_soma (mg : Bool) (m : ℤ) (o : Nat) (ds : List Nat)
    (s : EstadoAlocacao) (ho : o < s.unidades.length) :
    somaDemandaNa (alocarDestinos mg m o ds s).unidades +
        somaQtd (alocarDestinos mg m o ds s).alocacoes =
      somaDemandaNa s.unidades + somaQtd s.alocacoes := by
  induction ds generalizing s with
  | nil => rw [alocarDestinos]
  | cons d ds ih =>
    simp only [alocarDestinos]
    split_ifs with h1 h2 h3 h4
    · exact ih s ho
    · exact ih s ho
    · exact ih _ ho
    · exact corresponder_soma s o d ho
    · have hlen : (corresponder s o d).unidades.length = s.unidades.length :=
        length_aplicarAlocacao _ _ _ _
      exact (ih _ (by omega)).trans (corresponder_soma s o d ho)

theorem alocarOrigens_soma (mg : Bool) (m : ℤ) (destinos os : List Nat)
    (s : EstadoAlocacao) (hos : ∀ i ∈ os, i < s.unidades.length) :
    somaDemandaNa (alocarOrigens mg m destinos os s).unidades +
        somaQtd (alocarOrigens mg m destinos os s).alocacoes =
      somaDemandaNa s.unidades + somaQtd s.alocacoes := by
  induction os generalizing s with
  | nil => rw [alocarOrigens]
  | cons o os ih =>
    have ho : o < s.unidades.length := hos o (List.mem_cons_self o os)
    have hos' : ∀ i ∈ os, i < s.unidades.length := fun i hi => hos i (List.mem_cons_of_mem o hi)
    rw [alocarOrigens]
    split_ifs with h
    · exact ih s hos'
    · have hlen : (alocarDestinos mg m o destinos s).unidades.length = s.unidades.length :=
        alocarDestinos_length _ _ _ _ _
      exact (ih _ (fun i hi => by rw [hlen]; exact hos' i hi)).trans
        (alocarDestinos_soma mg m o destinos s ho)

theorem somaQtdOrigem_append_um (i : Nat) (as : List Alocacao) (e : Alocacao) :
    somaQtdOrigem i (as ++ [e]) =
      somaQtdOrigem i as + if e.origemIdx = i then e.quantidade else 0 := by
  by_cases h : e.origemIdx = i <;>
    simp [somaQtdOrigem, List.filter_append, h]

theorem somaQtdDestino_append_um (i : Nat) (as : List Alocacao) (e : Alocacao) :
    somaQtdDestino i (as ++ [e]) =
      somaQtdDestino i as + if e.destinoIdx = i then e.quantidade else 0 := by
  by_cases h : e.destinoIdx = i <;>
    simp [somaQtdDestino, List.filter_append, h]

theorem corresponder_conserva_na (s : EstadoAlocacao) (o d : Nat)
    (ho : o < s.unidades.length) (i : Nat) :
    (getU (corresponder s o d).unidades i).demanda_na +
        somaQtdOrigem i (corresponder s o d).alocacoes =
      (getU s.unidades i).demanda_na + somaQtdOrigem i s.alocacoes := by
  rw [unidades_corresponder, alocacoes_corresponder, na_aplicar, somaQtdOrigem_append_um]
  by_cases hoi : o = i
  · subst hoi
    rw [if_pos ⟨rfl, ho⟩, if_pos rfl]
    ring
  · rw [if_neg (fun h => hoi h.1), if_neg hoi]
    ring

theorem corresponder_conserva_oci (s : EstadoAlocacao) (o d : Nat)
    (hd : d < s.unidades.length) (i : Nat) :
    (getU (corresponder s o d).unidades i).capacidade_ociosa +
        somaQtdDestino i (corresponder s o d).alocacoes =
      (getU s.unidades i).capacidade_ociosa + somaQtdDestino i s.alocacoes := by
  rw [unidades_corresponder, alocacoes_corresponder, oci_aplicar, somaQtdDestino_append_um]
  by_cases hdi : d = i
  · subst hdi
    rw [if_pos ⟨rfl, hd⟩, if_pos rfl]
    ring
  · rw [if_neg (fun h => hdi h.1), if_neg hdi]
    ring

theorem alocarDestinos_conserva_na (mg : Bool) (m : ℤ) (o : Nat) (ds : List Nat)
    (s : EstadoAlocacao) (ho : o < s.unidades.length) (i : Nat) :
    (getU (alocarDestinos mg m o ds s).unidades i).demanda_na +
        somaQtdOrigem i (alocarDestinos mg m o ds s).alocacoes =
      (getU s.unidades i).demanda_na + somaQtdOrigem i s.alocacoes := by
  induction ds generalizing s with
  | nil => rw [alocarDestinos]
  | cons d ds ih =>
    simp only [alocarDestinos]
    split_ifs with h1 h2 h3 h4
    · exact ih s ho
    · exact ih s ho
    · exact ih _ ho
    · exact corresponder_conserva_na s o d ho i
    · have hlen : (corresponder s o d).unidades.length = s.unidades.length :=
        length_aplicarAlocacao _ _ _ _
      exact (ih _ (by omega)).trans (corresponder_conserva_na s o d ho i)

theorem alocarDestinos_conserva_oci (mg : Bool) (m : ℤ) (o : Nat) (ds : List Nat)
    (s : EstadoAlocacao) (hds : ∀ j ∈ ds, j < s.unidades.length) (i : Nat) :
    (getU (alocarDestinos mg m o ds s).unidades i).capacidade_ociosa +
        somaQtdDestino i (alocarDestinos mg m o ds s).alocacoes =
      (getU s.unidades i).capacidade_ociosa + somaQtdDestino i s.alocacoes := by
  induction ds generalizing s with
  | nil => rw [alocarDestinos]
  | cons d ds ih =>
    have hd : d < s.unidades.length := hds d (List.mem_cons_self d ds)
    have hds' : ∀ j ∈ ds, j < s.unidades.length := fun j hj => hds j (List.mem_cons_of_mem d hj)
    simp only [alocarDestinos]
    split_ifs with h1 h2 h3 h4
    · exact ih s hds'
    · exact ih s hds'
    · exact ih _ hds'
    · exact corresponder_conserva_oci s o d hd i
    · have hlen : (corresponder s o d).unidades.length = s.unidades.length :=
        length_aplicarAlocacao _ _ _ _
      exact (ih _ (fun j hj => by rw [hlen]; exact hds' j hj)).trans
        (corresponder_conserva_oci s o d hd i)

theorem alocarOrigens_conserva_na (mg : Bool) (m : ℤ) (destinos os : List Nat)
    (s : EstadoAlocacao) (hos : ∀ i ∈ os, i < s.unidades.length) (i : Nat) :
    (getU (alocarOrigens mg m destinos os s).unidades i).demanda_na +
        somaQtdOrigem i (alocarOrigens mg m destinos os s).alocacoes =
      (getU s.unidades i).demanda_na + somaQtdOrigem i s.alocacoes := by
  induction os generalizing s with
  | nil => rw [alocarOrigens]
  | cons o os ih =>
    have ho : o < s.unidades.length := hos o (List.mem_cons_self o os)
    have hos' : ∀ j ∈ os, j < s.unidades.length := fun j hj => hos j (List.mem_cons_of_mem o hj)
    rw [alocarOrigens]
    split_ifs with h
    · exact ih s hos'
    · have hlen : (alocarDestinos mg m o destinos s).unidades.length = s.unidades.length :=
        alocarDestinos_length _ _ _ _ _
      exact (ih _ (fun j hj => by rw [hlen]; exact hos' j hj)).trans
        (alocarDestinos_conserva_na mg m o destinos s ho i)

theorem alocarOrigens_conserva_oci (mg : Bool) (m : ℤ) (destinos os : List Nat)
    (s : EstadoAlocacao) (hds : ∀ j ∈ destinos, j < s.unidades.length) (i : Nat) :
    (getU (alocarOrigens mg m destinos os s).unidades i).capacidade_ociosa +
        somaQtdDestino i (alocarOrigens mg m destinos os s).alocacoes =
      (getU s.unidades i).capacidade_ociosa + somaQtdDestino i s.alocacoes := by
  induction os generalizing s with
  | nil => rw [alocarOrigens]
  | cons o os ih =>
    rw [alocarOrigens]
    split_ifs with h
    · exact ih s hds
    · have hlen : (alocarDestinos mg m o destinos s).unidades.length = s.unidades.length :=
        alocarDestinos_length _ _ _ _ _
      exact (ih _ (fun j hj => by rw [hlen]; exact hds j hj)).trans
        (alocarDestinos_conserva_oci mg m o destinos s hds i)

theorem alocarOrigens_qtd_skips (mg : Bool) (m : ℤ) (destinos os : List Nat)
    (s : EstadoAlocacao) :
    (alocarOrigens mg m destinos os s).qtd_skips = s.qtd_skips := by
  induction os generalizing s with
  | nil => rw [alocarOrigens]
  | cons o os ih =>
    rw [alocarOrigens]
    refine (ih _).trans ?_
    split_ifs with h
    · rfl
    · exact alocarDestinos_qtd_skips _ _ _ _ _ (not_lt.mp h)

theorem mem_origensDe (unidades : List Unidade) (i : Nat) :
    i ∈ origensDe unidades ↔
      i < unidades.length ∧ 0 < (getU unidades i).demanda_na := by
  rw [origensDe, mem_ordenarDesc]
  simp [List.mem_filter, List.mem_range]

theorem mem_destinosDe (m : ℤ) (unidades : List Unidade) (j : Nat) :
    j ∈ destinosDe m unidades ↔
      j < unidades.length ∧ m ≤ (getU unidades j).capacidade_ociosa := by
  rw [destinosDe, mem_ordenarDesc]
  simp [List.mem_filter, List.mem_range]

theorem fase_length (mg : Bool) (m : ℤ) (unidades : List Unidade) :
    (faseAlocacao mg m unidades).unidades.length = unidades.length :=
  alocarOrigens_length mg m _ _ _

theorem fase_camposFixos (mg : Bool) (m : ℤ) (unidades : List Unidade) (j : Nat) :
    camposFixos (getU (faseAlocacao mg m unidades).unidades j) =
      camposFixos (getU unidades j) :=
  alocarOrigens_camposFixos mg m _ _ _ j

theorem fase_qtd_skips (mg : Bool) (m : ℤ) (unidades : List Unidade) :
    (faseAlocacao mg m unidades).qtd_skips = 0 :=
  alocarOrigens_qtd_skips mg m _ _ _

theorem fase_naoNegativo (mg : Bool) (m : ℤ) (unidades : List Unidade)
    (hnn : NaoNegativo unidades) :
    NaoNegativo (faseAlocacao mg m unidades).unidades :=
  alocarOrigens_naoNegativo mg m _ _ _ hnn

theorem fase_soma (mg : Bool) (m : ℤ) (unidades : List Unidade) :
    somaDemandaNa (faseAlocacao mg m unidades).unidades +
        somaQtd (faseAlocacao mg m unidades).alocacoes = somaDemandaNa unidades := by
  have h := alocarOrigens_soma mg m (destinosDe m unidades) (origensDe unidades)
    { unidades := unidades, alocacoes := [], qtd_skips := 0 }
    (fun i hi => ((mem_origensDe unidades i).mp hi).1)
  simpa [somaQtd] using h

theorem fase_conserva_na (mg : Bool) (m : ℤ) (unidades : List Unidade) (i : Nat) :
    (getU (faseAlocacao mg m unidades).unidades i).demanda_na +
        somaQtdOrigem i (faseAlocacao mg m unidades).alocacoes =
      (getU unidades i).demanda_na := by
  have h := alocarOrigens_conserva_na mg m (destinosDe m unidades) (origensDe unidades)
    { unidades := unidades, alocacoes := [], qtd_skips := 0 }
    (fun j hj => ((mem_origensDe unidades j).mp hj).1) i
  simpa [somaQtdOrigem] using h

theorem fase_conserva_oci (mg : Bool) (m : ℤ) (unidades : List Unidade) (i : Nat) :
    (getU (faseAlocacao mg m unidades).unidades i).capacidade_ociosa +
        somaQtdDestino i (faseAlocacao mg m unidades).alocacoes =
      (getU unidades i).capacidade_ociosa := by
  have h := alocarOrigens_conserva_oci mg m (destinosDe m unidades) (origensDe unidades)
    { unidades := unidades, alocacoes := [], qtd_skips := 0 }
    (fun j hj => ((mem_destinosDe m unidades j).mp hj).1) i
  simpa [somaQtdDestino] using h

theorem fase_validas (mg : Bool) (m : ℤ) (unidades : List Unidade) :
    ∀ e ∈ (faseAlocacao mg m unidades).alocacoes,
      AlocacaoValida mg m (faseAlocacao mg m unidades).unidades e := by
  have h := alocarOrigens_alocacoesValidas mg m (destinosDe m unidades) (origensDe unidades)
    { unidades := unidades, alocacoes := [], qtd_skips := 0 }
    (fun i hi => ((mem_origensDe unidades i).mp hi).1)
    (fun j hj => ((mem_destinosDe m unidades j).mp hj).1)
    (fun e he => absurd he (List.not_mem_nil e))
  exact h

theorem fase_saturado (mg : Bool) (m : ℤ) (unidades : List Unidade) (hm : 0 < m) :
    Saturado mg m (faseAlocacao mg m unidades).unidades := by
  refine alocarOrigens_assenta mg m (destinosDe m unidades) (origensDe unidades)
    { unidades := unidades, alocacoes := [], qtd_skips := 0 } hm ?_ ?_
  · intro j hj hoci
    exact (mem_destinosDe m unidades j).mpr ⟨hj, hoci⟩
  · intro i hi hios hna
    exfalso
    have hi' : i < unidades.length := hi
    have hna' : m ≤ (getU unidades i).demanda_na := hna
    have : ¬(i < unidades.length ∧ 0 < (getU unidades i).demanda_na) :=
      fun hc => hios ((mem_origensDe unidades i).mpr hc)
    push_neg at this
    have := this hi'
    omega

theorem fase_fixa (mg : Bool) (m : ℤ) (unidades : List Unidade) (hm : 0 < m)
    (hsat : Saturado mg m unidades) :
    faseAlocacao mg m unidades =
      { unidades := unidades, alocacoes := [], qtd_skips := 0 } := by
  rw [faseAlocacao]
  exact alocarOrigens_bloqueado mg m _ _ _ hm hsat
    (fun i hi => ((mem_origensDe unidades i).mp hi).1)

theorem getU_map_auto (registros : List Registro) (i : Nat) (h : i < registros.length) :
    getU (registros.map autoAtendimento) i = autoAtendimento (registros.get ⟨i, h⟩) := by
  simp [getU, List.getD_eq_getElem?_getD, List.getElem?_map, List.getElem?_eq_getElem h]

theorem naoNegativo_autoAtendimento (r : Registro) :
    0 ≤ (autoAtendimento r).demanda_na ∧ 0 ≤ (autoAtendimento r).capacidade_ociosa := by
  constructor
  · show 0 ≤ r.demanda - min r.demanda r.capacidade_instalada
    have := min_le_left r.demanda r.capacidade_instalada
    omega
  · show 0 ≤ r.capacidade_instalada - min r.demanda r.capacidade_instalada
    have := min_le_right r.demanda r.capacidade_instalada
    omega

theorem naoNegativo_apos_fase1 (registros : List Registro) :
    NaoNegativo (registros.map autoAtendimento) := by
  intro i
  by_cases h : i < registros.length
  · rw [getU_map_auto registros i h]
    exact naoNegativo_autoAtendimento _
  · rw [getU_oob _ _ (by simpa using not_lt.mp h)]
    exact ⟨le_refl 0, le_refl 0⟩

theorem na_map_formatar (alocs : List Alocacao) (l : List Unidade) (i : Nat) :
    (getU (l.map (formatarUnidade alocs)) i).demanda_na = (getU l i).demanda_na := by
  by_cases h : i < l.length
  · rw [getU_map_formatar alocs l i h]
    rfl
  · rw [getU_oob _ _ (by simpa using not_lt.mp h), getU_oob _ _ (not_lt.mp h)]

theorem oci_map_formatar (alocs : List Alocacao) (l : List Unidade) (i : Nat) :
    (getU (l.map (formatarUnidade alocs)) i).capacidade_ociosa =
      (getU l i).capacidade_ociosa := by
  by_cases h : i < l.length
  · rw [getU_map_formatar alocs l i h]
    rfl
  · rw [getU_oob _ _ (by simpa using not_lt.mp h), getU_oob _ _ (not_lt.mp h)]

theorem id_map_formatar (alocs : List Alocacao) (l : List Unidade) (i : Nat) :
    (getU (l.map (formatarUnidade alocs)) i).identificador =
      (getU l i).identificador := by
  by_cases h : i < l.length
  · rw [getU_map_formatar alocs l i h]
    rfl
  · rw [getU_oob _ _ (by simpa using not_lt.mp h), getU_oob _ _ (not_lt.mp h)]

theorem grupo_map_formatar (alocs : List Alocacao) (l : List Unidade) (i : Nat) :
    (getU (l.map (formatarUnidade alocs)) i).grupo = (getU l i).grupo := by
  by_cases h : i < l.length
  · rw [getU_map_formatar alocs l i h]
    rfl
  · rw [getU_oob _ _ (by simpa using not_lt.mp h), getU_oob _ _ (not_lt.mp h)]

theorem dem_map_formatar (alocs : List Alocacao) (l : List Unidade) (i : Nat) :
    (getU (l.map (formatarUnidade alocs)) i).demanda = (getU l i).demanda := by
  by_cases h : i < l.length
  · rw [getU_map_formatar alocs l i h]
    rfl
  · rw [getU_oob _ _ (by simpa using not_lt.mp h), getU_oob _ _ (not_lt.mp h)]

theorem cap_map_formatar (alocs : List Alocacao) (l : List Unidade) (i : Nat) :
    (getU (l.map (formatarUnidade alocs)) i).capacidade_instalada =
      (getU l i).capacidade_instalada := by
  by_cases h : i < l.length
  · rw [getU_map_formatar alocs l i h]
    rfl
  · rw [getU_oob _ _ (by simpa using not_lt.mp h), getU_oob _ _ (not_lt.mp h)]

theorem local_map_formatar (alocs : List Alocacao) (l : List Unidade) (i : Nat) :
    (getU (l.map (formatarUnidade alocs)) i).demanda_atendida_local =
      (getU l i).demanda_atendida_local := by
  by_cases h : i < l.length
  · rw [getU_map_formatar alocs l i h]
    rfl
  · rw [getU_oob _ _ (by simpa using not_lt.mp h), getU_oob _ _ (not_lt.mp h)]

theorem somaDemandaNa_map_formatar (alocs : List Alocacao) (l : List Unidade) :
    somaDemandaNa (l.map (formatarUnidade alocs)) = somaDemandaNa l := by
  have hcomp : (fun u => u.demanda_na) ∘ formatarUnidade alocs =
      fun u : Unidade => u.demanda_na := by
    funext u
    rfl
  simp only [somaDemandaNa, List.map_map, hcomp]

theorem saturado_map_formatar (mg : Bool) (m : ℤ) (alocs : List Alocacao)
    (l : List Unidade) (h : Saturado mg m l) :
    Saturado mg m (l.map (formatarUnidade alocs)) := by
  intro i hi hna
  have hi' : i < l.length := by simpa using hi
  have hna' : m ≤ (getU l i).demanda_na := by
    rw [← na_map_formatar alocs l i]
    exact hna
  intro j hj hoci
  have hj' : j < l.length := by simpa using hj
  have hoci' : m ≤ (getU l j).capacidade_ociosa := by
    rw [← oci_map_formatar alocs l j]
    exact hoci
  rcases h i hi' hna' j hj' hoci' with hb | ⟨hmg, hne⟩
  · left
    rw [id_map_formatar, id_map_formatar]
    exact hb
  · right
    refine ⟨hmg, ?_⟩
    rw [grupo_map_formatar, grupo_map_formatar]
    exact hne

theorem unidades_calcular (registros : List Registro) (mg : Bool) (m : ℤ) :
    (calcular_alocacao registros mg m).unidades =
      (faseAlocacao mg m (registros.map autoAtendimento)).unidades.map
        (formatarUnidade (faseAlocacao mg m (registros.map autoAtendimento)).alocacoes) := rfl

theorem alocacoes_calcular (registros : List Registro) (mg : Bool) (m : ℤ) :
    (calcular_alocacao registros mg m).alocacoes =
      (faseAlocacao mg m (registros.map autoAtendimento)).alocacoes := rfl

theorem qtd_skips_calcular (registros : List Registro) (mg : Bool) (m : ℤ) :
    (calcular_alocacao registros mg m).qtd_skips =
      (faseAlocacao mg m (registros.map autoAtendimento)).qtd_skips := rfl

theorem demanda_na_inicial_calcular (registros : List Registro) (mg : Bool) (m : ℤ) :
    (calcular_alocacao registros mg m).resumo.demanda_na_inicial =
      somaDemandaNa (registros.map autoAtendimento) := rfl

theorem demanda_na_final_calcular (registros : List Registro) (mg : Bool) (m : ℤ) :
    (calcular_alocacao registros mg m).resumo.demanda_na_final =
      somaDemandaNa ((faseAlocacao mg m (registros.map autoAtendimento)).unidades.map
        (formatarUnidade (faseAlocacao mg m (registros.map autoAtendimento)).alocacoes)) := rfl

theorem demanda_alocada_calcular (registros : List Registro) (mg : Bool) (m : ℤ) :
    (calcular_alocacao registros mg m).resumo.demanda_alocada =
      somaDemandaNa (registros.map autoAtendimento) -
        somaDemandaNa ((faseAlocacao mg m (registros.map autoAtendimento)).unidades.map
          (formatarUnidade (faseAlocacao mg m (registros.map autoAtendimento)).alocacoes)) := rfl

theorem eficiencia_calcular (registros : List Registro) (mg : Bool) (m : ℤ) :
    (calcular_alocacao registros mg m).resumo.eficiencia =
      if 0 < somaDemandaNa (registros.map autoAtendimento) then
        ((somaDemandaNa (registros.map autoAtendimento) : ℚ) -
            (somaDemandaNa ((faseAlocacao mg m (registros.map autoAtendimento)).unidades.map
              (formatarUnidade
                (faseAlocacao mg m (registros.map autoAtendimento)).alocacoes)) : ℚ)) /
          (somaDemandaNa (registros.map autoAtendimento) : ℚ) * 100
      else 100 := rfl

theorem ids_injetivos (registros : List Registro)
    (hids : (registros.map Registro.identificador).Nodup)
    (a b : Nat) (ha : a < registros.length) (hb : b < registros.length)
    (h : (registros.get ⟨a, ha⟩).identificador = (registros.get ⟨b, hb⟩).identificador) :
    a = b := by
  have ha' : a < (registros.map Registro.identificador).length := by simpa using ha
  have hb' : b < (registros.map Registro.identificador).length := by simpa using hb
  have hab : (registros.map Registro.identificador).get ⟨a, ha'⟩ =
      (registros.map Registro.identificador).get ⟨b, hb'⟩ := by
    simpa [List.get_eq_getElem, List.getElem_map] using h
  have := (@List.Nodup.getElem_inj_iff _ _ hids a ha' b hb').mp (by simpa using hab)
  exact this

/-- C3: for every input and configuration, the summary field `demanda_alocada`
(the sum of `demanda_na` over all units before matching minus the sum after
matching, line 180) equals the sum of `quantidade` over all recorded
allocation entries. -/
theorem C3_concordancia_metricas (registros : List Registro) (mesmo_grupo : Bool)
    (min_alocacao : ℤ) :
    (calcular_alocacao registros mesmo_grupo min_alocacao).resumo.demanda_alocada =
      somaQtd (calcular_alocacao registros mesmo_grupo min_alocacao).alocacoes := by
  rw [demanda_alocada_calcular, alocacoes_calcular, somaDemandaNa_map_formatar]
  have h := fase_soma mesmo_grupo min_alocacao (registros.map autoAtendimento)
  omega

/-- C4: for every input and configuration with `min_alocacao > 0`, every
recorded allocation entry has `quantidade >= min_alocacao` (the guard of
lines 128-129 precedes every append). -/
theorem C4_respeito_limite (registros : List Registro) (mesmo_grupo : Bool)
    (min_alocacao : ℤ) (hm : 0 < min_alocacao) :
    ∀ e ∈ (calcular_alocacao registros mesmo_grupo min_alocacao).alocacoes,
      min_alocacao ≤ e.quantidade := by
  intro e he
  rw [alocacoes_calcular] at he
  exact (fase_validas mesmo_grupo min_alocacao (registros.map autoAtendimento) e he).1

/-- Auxiliary application of C4 at the worked example: the single recorded
entry of the run with threshold 10 moves quantity 20. -/
theorem C4_respeito_limite_witness :
    (0:ℤ) < 10 ∧
      (⟨0, 1, "CAP001", "CAP002", 20⟩ : Alocacao) ∈
        (calcular_alocacao exemplo true 10).alocacoes ∧
      (10:ℤ) ≤ (⟨0, 1, "CAP001", "CAP002", 20⟩ : Alocacao).quantidade :=
  ⟨by decide, by decide,
    C4_respeito_limite exemplo true 10 (by decide) _ (by decide)⟩

/-- C5: with the group restriction on (`mesmo_grupo = true`), every recorded
allocation entry joins an origin and a destination with equal `grupo`, for all
inputs and all threshold values (the guard of lines 121-122). -/
theorem C5_respeito_grupo (registros : List Registro) (min_alocacao : ℤ) :
    ∀ e ∈ (calcular_alocacao registros true min_alocacao).alocacoes,
      (getU (calcular_alocacao registros true min_alocacao).unidades e.origemIdx).grupo =
        (getU (calcular_alocacao registros true min_alocacao).unidades e.destinoIdx).grupo := by
  intro e he
  rw [alocacoes_calcular] at he
  have hv := fase_validas true min_alocacao (registros.map autoAtendimento) e he
  have hg := hv.2.2.2.2.2.2 rfl
  rw [unidades_calcular, grupo_map_formatar, grupo_map_formatar]
  exact hg

/-- Auxiliary application of C5 at the worked example: the single recorded
entry joins two units of group `A`. -/
theorem C5_respeito_grupo_witness :
    (getU (calcular_alocacao exemplo true 10).unidades 0).grupo =
      (getU (calcular_alocacao exemplo true 10).unidades 1).grupo :=
  C5_respeito_grupo exemplo 10 (⟨0, 1, "CAP001", "CAP002", 20⟩ : Alocacao) (by decide)

/-- C6: with non-negative input columns, every unit of the result has
`demanda_na_final >= 0` and `capacidade_ociosa_final >= 0`, and one matching
step of the loop (the update of lines 131-133 with
`qtd_alocada = min(origem.demanda_na, destino.capacidade_ociosa)`) preserves
non-negativity of the two mutable columns from any non-negative state. -/
theorem C6_nao_negatividade (registros : List Registro) (mesmo_grupo : Bool)
    (min_alocacao : ℤ)
    (h : ∀ r ∈ registros, 0 ≤ r.demanda ∧ 0 ≤ r.capacidade_instalada) :
    (∀ u ∈ (calcular_alocacao registros mesmo_grupo min_alocacao).unidades,
        0 ≤ u.demanda_na ∧ 0 ≤ u.capacidade_ociosa) ∧
      (∀ (unidades : List Unidade) (o d : Nat), NaoNegativo unidades →
        NaoNegativo (aplicarAlocacao unidades o d
          (min (getU unidades o).demanda_na (getU unidades d).capacidade_ociosa))) := by
  constructor
  · intro u hu
    rw [unidades_calcular] at hu
    rcases List.mem_map.mp hu with ⟨v, hv, rfl⟩
    have hnn := fase_naoNegativo mesmo_grupo min_alocacao (registros.map autoAtendimento)
      (naoNegativo_apos_fase1 registros)
    rcases List.mem_iff_get.mp hv with ⟨⟨idx, hidx⟩, rfl⟩
    have h1 := hnn idx
    rw [getU, List.getD_eq_getElem _ _ hidx] at h1
    exact h1
  · intro unidades o d hnn
    exact naoNegativo_aplicar unidades o d hnn

/-- Auxiliary application of C6 at the worked example. -/
theorem C6_nao_negatividade_witness :
    0 ≤ (getU (calcular_alocacao exemplo true 10).unidades 0).demanda_na ∧
      0 ≤ (getU (calcular_alocacao exemplo true 10).unidades 0).capacidade_ociosa :=
  (C6_nao_negatividade exemplo true 10 (by decide)).1
    (getU (calcular_alocacao exemplo true 10).unidades 0) (by decide)

/-- C7: the summary field `eficiencia` equals
`(demanda_na_inicial - demanda_na_final) / demanda_na_inicial * 100` whenever
`demanda_na_inicial > 0`, and equals exactly `100` when
`demanda_na_inicial = 0` (lines 169-173). -/
theorem C7_eficiencia (registros : List Registro) (mesmo_grupo : Bool)
    (min_alocacao : ℤ) :
    (0 < (calcular_alocacao registros mesmo_grupo min_alocacao).resumo.demanda_na_inicial →
      (calcular_alocacao registros mesmo_grupo min_alocacao).resumo.eficiencia =
        (((calcular_alocacao registros mesmo_grupo min_alocacao).resumo.demanda_na_inicial : ℚ) -
            ((calcular_alocacao registros mesmo_grupo min_alocacao).resumo.demanda_na_final : ℚ)) /
          ((calcular_alocacao registros mesmo_grupo min_alocacao).resumo.demanda_na_inicial : ℚ) *
          100) ∧
    ((calcular_alocacao registros mesmo_grupo min_alocacao).resumo.demanda_na_inicial = 0 →
      (calcular_alocacao registros mesmo_grupo min_alocacao).resumo.eficiencia = 100) := by
  constructor
  · intro h
    have h' : 0 < somaDemandaNa (registros.map autoAtendimento) := by
      rw [← demanda_na_inicial_calcular registros mesmo_grupo min_alocacao]
      exact h
    rw [demanda_na_inicial_calcular, demanda_na_final_calcular, eficiencia_calcular,
      if_pos h']
  · intro h
    have h' : somaDemandaNa (registros.map autoAtendimento) = 0 := by
      rw [← demanda_na_inicial_calcular registros mesmo_grupo min_alocacao]
      exact h
    rw [eficiencia_calcular, if_neg (by omega)]

/-- Auxiliary application of C7: with the worked example the initial residual
is positive and the formula applies; with a self-sufficient unit the initial
residual is zero and the efficiency is the conventional 100. -/
theorem C7_eficiencia_witness :
    (calcular_alocacao exemplo true 10).resumo.eficiencia =
        (((calcular_alocacao exemplo true 10).resumo.demanda_na_inicial : ℚ) -
            ((calcular_alocacao exemplo true 10).resumo.demanda_na_final : ℚ)) /
          ((calcular_alocacao exemplo true 10).resumo.demanda_na_inicial : ℚ) * 100 ∧
      (calcular_alocacao exemploAutossuficiente true 10).resumo.eficiencia = 100 :=
  ⟨(C7_eficiencia exemplo true 10).1 (by decide),
    (C7_eficiencia exemploAutossuficiente true 10).2 (by decide)⟩

/-- C8 fails on the code: `calcular_alocacao` performs no configuration check
and no `InvalidConfigError` exists; called directly with `min_alocacao = 0` on
the worked example it records an allocation entry and mutates the first unit's
residual demand (from 20 to 0). -/
theorem C8_contraexemplo :
    (calcular_alocacao exemplo true 0).alocacoes ≠ [] ∧
      (getU (calcular_alocacao exemplo true 0).unidades 0).demanda_na ≠
        (getU (exemplo.map autoAtendimento) 0).demanda_na := by
  decide

/-- C8 amended: the engine itself never rejects a configuration; the
protection is upstream, in the UI widget of lines 48-49, whose lower bound 1
keeps every value reaching the engine strictly positive, while a direct call
with `min_alocacao <= 0` proceeds to match (entries are produced). -/
theorem C8_emendada :
    (∀ m : ℤ, configAceitaPelaUI m → 0 < m) ∧
      (calcular_alocacao exemplo true 0).alocacoes ≠ [] := by
  constructor
  · intro m hm
    have h1 : (1:ℤ) ≤ m := hm
    omega
  · decide

/-- Auxiliary application of C8: the widget default 10 is accepted by the UI
and is strictly positive. -/
theorem C8_emendada_witness : (0:ℤ) < 10 :=
  C8_emendada.1 10 (by show minAlocacaoLimiteUI ≤ 10; decide)

/-- C10: with `min_alocacao > 0` the inner threshold-skip branch
(`qtd_alocada < min_alocacao`, line 128) is never taken: the origin skip, the
destination skip and the per-origin break already guarantee both sides reach
the threshold, so the instrumentation counter stays at zero. -/
theorem C10_ramo_inalcancavel (registros : List Registro) (mesmo_grupo : Bool)
    (min_alocacao : ℤ) (hm : 0 < min_alocacao) :
    (calcular_alocacao registros mesmo_grupo min_alocacao).qtd_skips = 0 := by
  rw [qtd_skips_calcular]
  exact fase_qtd_skips mesmo_grupo min_alocacao (registros.map autoAtendimento)

/-- Auxiliary application of C10 at the worked example. -/
theorem C10_ramo_inalcancavel_witness :
    (calcular_alocacao exemplo true 10).qtd_skips = 0 :=
  C10_ramo_inalcancavel exemplo true 10 (by decide)

/-- C2: running the matching phase a second time on the post-match unit
collection (the final records, carrying their final `demanda_na` and
`capacidade_ociosa`) with the same `mesmo_grupo` and `min_alocacao` produces
no allocation entry and leaves every unit unchanged. -/
theorem C2_idempotencia (registros : List Registro) (mesmo_grupo : Bool)
    (min_alocacao : ℤ) (hm : 0 < min_alocacao) :
    (faseAlocacao mesmo_grupo min_alocacao
        (calcular_alocacao registros mesmo_grupo min_alocacao).unidades).alocacoes = [] ∧
      (faseAlocacao mesmo_grupo min_alocacao
          (calcular_alocacao registros mesmo_grupo min_alocacao).unidades).unidades =
        (calcular_alocacao registros mesmo_grupo min_alocacao).unidades := by
  have hsat0 := fase_saturado mesmo_grupo min_alocacao (registros.map autoAtendimento) hm
  have hsat : Saturado mesmo_grupo min_alocacao
      (calcular_alocacao registros mesmo_grupo min_alocacao).unidades := by
    rw [unidades_calcular]
    exact saturado_map_formatar mesmo_grupo min_alocacao _ _ hsat0
  rw [fase_fixa mesmo_grupo min_alocacao _ hm hsat]
  exact ⟨rfl, rfl⟩

/-- Auxiliary application of C2 at the worked example. -/
theorem C2_idempotencia_witness :
    (faseAlocacao true 10 (calcular_alocacao exemplo true 10).unidades).alocacoes = [] ∧
      (faseAlocacao true 10 (calcular_alocacao exemplo true 10).unidades).unidades =
        (calcular_alocacao exemplo true 10).unidades :=
  C2_idempotencia exemplo true 10 (by decide)

/-- C1 fails on the code: after a run with one allocation, the first unit of
the worked example has `demanda_atendida_local + demanda_na_final = 100 + 0`,
which differs from its `demanda = 120`, and the second has
`demanda_atendida_local + capacidade_ociosa_final = 100 + 30`, which differs
from its `capacidade_instalada = 150`: matching lowers the residual columns
while the self-service column stays fixed. -/
theorem C1_contraexemplo :
    ¬ (∀ u ∈ (calcular_alocacao exemplo true 10).unidades,
        u.demanda_atendida_local + u.demanda_na = u.demanda ∧
        u.demanda_atendida_local + u.capacidade_ociosa = u.capacidade_instalada) := by
  decide

/-- C1 amended: conservation holds once the allocation entries are counted:
for every unit, `demanda_atendida_local + demanda_na_final` plus the
quantities of the entries the unit originated equals `demanda`, and
`demanda_atendida_local + capacidade_ociosa_final` plus the quantities of the
entries the unit received equals `capacidade_instalada`, for every input and
configuration. -/
theorem C1_conservacao_emendada (registros : List Registro) (mesmo_grupo : Bool)
    (min_alocacao : ℤ) (i : Nat)
    (hi : i < (calcular_alocacao registros mesmo_grupo min_alocacao).unidades.length) :
    ((getU (calcular_alocacao registros mesmo_grupo min_alocacao).unidades i).demanda_atendida_local +
        (getU (calcular_alocacao registros mesmo_grupo min_alocacao).unidades i).demanda_na +
        somaQtdOrigem i (calcular_alocacao registros mesmo_grupo min_alocacao).alocacoes =
      (getU (calcular_alocacao registros mesmo_grupo min_alocacao).unidades i).demanda) ∧
    ((getU (calcular_alocacao registros mesmo_grupo min_alocacao).unidades i).demanda_atendida_local +
        (getU (calcular_alocacao registros mesmo_grupo min_alocacao).unidades i).capacidade_ociosa +
        somaQtdDestino i (calcular_alocacao registros mesmo_grupo min_alocacao).alocacoes =
      (getU (calcular_alocacao registros mesmo_grupo min_alocacao).unidades i).capacidade_instalada) := by
  have hreg : i < registros.length := by
    have h0 := hi
    rw [unidades_calcular] at h0
    simpa [fase_length] using h0
  rw [unidades_calcular, alocacoes_calcular, local_map_formatar, na_map_formatar,
    oci_map_formatar, dem_map_formatar, cap_map_formatar]
  have hcf := fase_camposFixos mesmo_grupo min_alocacao (registros.map autoAtendimento) i
  rw [local_de_camposFixos hcf, dem_de_camposFixos hcf, cap_de_camposFixos hcf]
  have h1 := fase_conserva_na mesmo_grupo min_alocacao (registros.map autoAtendimento) i
  have h2 := fase_conserva_oci mesmo_grupo min_alocacao (registros.map autoAtendimento) i
  rw [getU_map_auto registros i hreg] at h1 h2 ⊢
  have hd : (autoAtendimento (registros.get ⟨i, hreg⟩)).demanda_atendida_local +
      (autoAtendimento (registros.get ⟨i, hreg⟩)).demanda_na =
      (autoAtendimento (registros.get ⟨i, hreg⟩)).demanda := by
    show min (registros.get ⟨i, hreg⟩).demanda (registros.get ⟨i, hreg⟩).capacidade_instalada +
        ((registros.get ⟨i, hreg⟩).demanda -
          min (registros.get ⟨i, hreg⟩).demanda (registros.get ⟨i, hreg⟩).capacidade_instalada) =
      (registros.get ⟨i, hreg⟩).demanda
    ring
  have hc : (autoAtendimento (registros.get ⟨i, hreg⟩)).demanda_atendida_local +
      (autoAtendimento (registros.get ⟨i, hreg⟩)).capacidade_ociosa =
      (autoAtendimento (registros.get ⟨i, hreg⟩)).capacidade_instalada := by
    show min (registros.get ⟨i, hreg⟩).demanda (registros.get ⟨i, hreg⟩).capacidade_instalada +
        ((registros.get ⟨i, hreg⟩).capacidade_instalada -
          min (registros.get ⟨i, hreg⟩).demanda (registros.get ⟨i, hreg⟩).capacidade_instalada) =
      (registros.get ⟨i, hreg⟩).capacidade_instalada
    ring
  constructor
  · omega
  · omega

/-- Auxiliary application of the amended C1 at the worked example, first
unit. -/
theorem C1_conservacao_emendada_witness :
    ((getU (calcular_alocacao exemplo true 10).unidades 0).demanda_atendida_local +
        (getU (calcular_alocacao exemplo true 10).unidades 0).demanda_na +
        somaQtdOrigem 0 (calcular_alocacao exemplo true 10).alocacoes =
      (getU (calcular_alocacao exemplo true 10).unidades 0).demanda) ∧
    ((getU (calcular_alocacao exemplo true 10).unidades 0).demanda_atendida_local +
        (getU (calcular_alocacao exemplo true 10).unidades 0).capacidade_ociosa +
        somaQtdDestino 0 (calcular_alocacao exemplo true 10).alocacoes =
      (getU (calcular_alocacao exemplo true 10).unidades 0).capacidade_instalada) :=
  C1_conservacao_emendada exemplo true 10 0 (by decide)

/-- C9: when the input identifiers are pairwise distinct, every unit's
`demanda_atendida_por` is the `"<destino> (<quantidade>)"` strings of the
entries that unit originated, in creation order, joined by `"; "`, and the
sentinel `"Auto-atendimento"` for a unit that originated none (lines
145-154). -/
theorem C9_trilha_por_origem (registros : List Registro) (mesmo_grupo : Bool)
    (min_alocacao : ℤ) (hids : (registros.map Registro.identificador).Nodup)
    (i : Nat)
    (hi : i < (calcular_alocacao registros mesmo_grupo min_alocacao).unidades.length) :
    (getU (calcular_alocacao registros mesmo_grupo min_alocacao).unidades i).demanda_atendida_por =
      if ((calcular_alocacao registros mesmo_grupo min_alocacao).alocacoes.filter
          (fun a => decide (a.origemIdx = i))) = [] then "Auto-atendimento"
      else String.intercalate "; "
        (((calcular_alocacao registros mesmo_grupo min_alocacao).alocacoes.filter
            (fun a => decide (a.origemIdx = i))).map
          (fun a => a.destino ++ " (" ++ toString a.quantidade ++ ")")) := by
  have hreg : i < registros.length := by
    have h0 := hi
    rw [unidades_calcular] at h0
    simpa [fase_length] using h0
  have hfase : i <
      (faseAlocacao mesmo_grupo min_alocacao (registros.map autoAtendimento)).unidades.length := by
    rw [fase_length]
    simpa using hreg
  have hident : ∀ k (hk : k < registros.length),
      (getU (faseAlocacao mesmo_grupo min_alocacao
        (registros.map autoAtendimento)).unidades k).identificador =
        (registros.get ⟨k, hk⟩).identificador := by
    intro k hk
    rw [id_de_camposFixos
      (fase_camposFixos mesmo_grupo min_alocacao (registros.map autoAtendimento) k),
      getU_map_auto registros k hk]
    rfl
  rw [unidades_calcular, alocacoes_calcular, getU_map_formatar _ _ _ hfase]
  show detalheTexto
      ((faseAlocacao mesmo_grupo min_alocacao (registros.map autoAtendimento)).alocacoes.filter
        (fun a => decide (a.origem_id =
          (getU (faseAlocacao mesmo_grupo min_alocacao
            (registros.map autoAtendimento)).unidades i).identificador))) = _
  have hfiltro :
      (faseAlocacao mesmo_grupo min_alocacao (registros.map autoAtendimento)).alocacoes.filter
        (fun a => decide (a.origem_id =
          (getU (faseAlocacao mesmo_grupo min_alocacao
            (registros.map autoAtendimento)).unidades i).identificador)) =
      (faseAlocacao mesmo_grupo min_alocacao (registros.map autoAtendimento)).alocacoes.filter
        (fun a => decide (a.origemIdx = i)) := by
    apply List.filter_congr
    intro a ha
    have hv := fase_validas mesmo_grupo min_alocacao (registros.map autoAtendimento) a ha
    have hidx : a.origemIdx < registros.length := by
      have hb := hv.2.1
      rw [fase_length] at hb
      simpa using hb
    rw [decide_eq_decide]
    constructor
    · intro hid
      apply ids_injetivos registros hids a.origemIdx i hidx hreg
      rw [← hident a.origemIdx hidx, ← hident i hreg]
      rw [← hv.2.2.2.1]
      exact hid
    · intro hEq
      rw [hv.2.2.2.1, hEq]
  rw [hfiltro]
  rw [detalheTexto]
  by_cases hnil :
      ((faseAlocacao mesmo_grupo min_alocacao (registros.map autoAtendimento)).alocacoes.filter
        (fun a => decide (a.origemIdx = i))) = []
  · rw [if_pos (by simp [hnil]), if_pos hnil]
  · rw [if_neg (by simp [hnil]), if_neg hnil]

/-- Auxiliary application of C9 at the worked example, first unit (whose
trail is `"CAP002 (20)"`). -/
theorem C9_trilha_por_origem_witness :
    (getU (calcular_alocacao exemplo true 10).unidades 0).demanda_atendida_por =
      if ((calcular_alocacao exemplo true 10).alocacoes.filter
          (fun a => decide (a.origemIdx = 0))) = [] then "Auto-atendimento"
      else String.intercalate "; "
        (((calcular_alocacao exemplo true 10).alocacoes.filter
            (fun a => decide (a.origemIdx = 0))).map
          (fun a => a.destino ++ " (" ++ toString a.quantidade ++ ")")) :=
  C9_trilha_por_origem exemplo true 10 (by decide) 0 (by decide)
